import Mathlib

/-!
# Employee-onboarding conversation graph: shallow embedding

This file embeds the conversational state machine of `graph_flow.py`
(node functions, router, compiled graph edges), the persistence sink of
`db.py`, and the per-turn driver of `main.py` (append the user utterance
to `history`, then invoke the graph once).

Python dicts are modelled as insertion-ordered association lists
(`dictSet` has Python dict-update semantics: updating an existing key
keeps its position, a new key is appended at the end).  The filesystem
outcome of the CSV write in `db.py` is a parameter `sinkErr : Option
String`: `none` means the write succeeds, `some e` means `to_csv`
raised an exception rendered as `e`.
-/

namespace Onboarding

/-- A partially-filled or completed employee record: the Python dict
`current_manual_entry` (string keys to raw string values), as an
insertion-ordered association list. -/
abbrev EmployeeDict := List (String × String)

/-- A chat message as built by `graph_flow.py`: always `role` and
`content`; optionally a `type` tag (`"choice"` or `"dataframe"`),
button `options`, and a `data` payload (snapshot of the batch). -/
structure Message where
  role : String
  content : String
  type : Option String := none
  options : Option (List String) := none
  data : Option (List EmployeeDict) := none
deriving Repr, DecidableEq

/-- The `OnboardingState` TypedDict of `graph_flow.py`. -/
structure OnboardingState where
  history : List Message
  onboarding_data : List EmployeeDict
  current_manual_entry : EmployeeDict
  manual_entry_field : String
deriving Repr, DecidableEq

/-- Python dict update `d[k] = v`: overwrite in place if the key
exists, otherwise append at the end. -/
def dictSet (d : EmployeeDict) (k v : String) : EmployeeDict :=
  if d.any (fun p => p.1 == k) then
    d.map (fun p => if p.1 == k then (k, v) else p)
  else
    d ++ [(k, v)]

/-- Substring occurrence on character lists (Python `pat in hay`). -/
def hasSubstrAux : List Char → List Char → Bool
  | hay, pat =>
    match hay with
    | [] => pat.isEmpty
    | _ :: t => pat.isPrefixOf hay || hasSubstrAux t pat

/-- Python substring test `pat in hay`. -/
def strContains (hay pat : String) : Bool :=
  hasSubstrAux hay.toList pat.toList

/-- Python `str.lower()` (character-wise; agrees with Python on the
ASCII command vocabulary the router matches). -/
def strLower (s : String) : String := ⟨s.data.map Char.toLower⟩

/-- The user message appended to `history` by `handle_user_input` in
`main.py` before the graph is invoked. -/
def userMsg (c : String) : Message := { role := "user", content := c }

/-- An assistant message with no widget. -/
def plainMsg (c : String) : Message := { role := "assistant", content := c }

/-- An assistant message rendered as buttons. -/
def choiceMsg (c : String) (opts : List String) : Message :=
  { role := "assistant", content := c, type := some "choice", options := some opts }

/-- An assistant message rendered as an editable table. -/
def tableMsg (c : String) (d : List EmployeeDict) : Message :=
  { role := "assistant", content := c, type := some "dataframe", data := some d }

-- ## The messages emitted by the nodes of `graph_flow.py`

/-- Welcome choice emitted by `start_onboarding`. -/
def welcomeMsg : Message :=
  choiceMsg "Welcome to the employee onboarding flow! How would you like to provide employee details?"
    ["Upload Excel File", "Enter Manually"]

/-- Table shown by `process_upload` on a populated batch. -/
def uploadTableMsg (d : List EmployeeDict) : Message :=
  tableMsg "File processed successfully! Here is the extracted data. Please review it carefully." d

/-- Prompt emitted by `process_upload` on an empty batch. -/
def uploadPromptMsg : Message :=
  plainMsg "Please upload an Excel file with employee data to continue."

/-- First manual-entry prompt, from `start_manual_entry`. -/
def askNameMsg : Message :=
  plainMsg "Let\x27s add an employee manually. What is the employee\x27s full name?"

/-- Completion table from `process_manual_entry`. -/
def collectedTableMsg (d : List EmployeeDict) : Message :=
  tableMsg "All details collected! You can review the data below and choose your next action." d

/-- Completion choice from `process_manual_entry`. -/
def nextActionMsg : Message :=
  choiceMsg "What would you like to do next?" ["Save Data", "Add Another Employee", "Modify Data"]

/-- Defensive restart prompt from `process_manual_entry`. -/
def restartMsg : Message :=
  plainMsg "Let\x27s start over. What is the employee\x27s full name?"

/-- Review table from `validate_data` on a populated batch. -/
def reviewTableMsg (d : List EmployeeDict) : Message :=
  tableMsg "Please review the collected employee data below:" d

/-- Review choice from `validate_data` on a populated batch. -/
def reviewChoiceMsg : Message :=
  choiceMsg "What would you like to do?"
    ["Save Data", "Add Another Employee", "Modify Data", "Clear All Data"]

/-- Choice from `validate_data` on an empty batch. -/
def noDataFoundMsg : Message :=
  choiceMsg "No employee data found. Would you like to add an employee?"
    ["Enter Manually", "Upload Excel File"]

/-- Message from `save_data` on an empty batch. -/
def noSaveMsg : Message :=
  plainMsg "No data to save. The onboarding process is complete."

/-- Message from `save_data` on a non-empty batch, wrapping the sink
result message. -/
def saveDoneMsg (result_message : String) : Message :=
  plainMsg (result_message ++
    "\n\nThe onboarding process is complete! You are now back in standard chat mode.")

/-- Choice emitted by `clear_data`. -/
def clearedMsg : Message :=
  choiceMsg "All data cleared. What would you like to do next?"
    ["Enter Manually", "Upload Excel File"]

-- ## Graph node functions (one per node of `graph_flow.py`)

/-- Node `start_onboarding`. -/
def start_onboarding (s : OnboardingState) : OnboardingState :=
  { s with history := s.history ++ [welcomeMsg] }

/-- Node `process_upload`; the Python truthiness test
`if state.get('onboarding_data')` is emptiness of the list. -/
def process_upload (s : OnboardingState) : OnboardingState :=
  if s.onboarding_data.isEmpty then
    { s with history := s.history ++ [uploadPromptMsg] }
  else
    { s with history := s.history ++ [uploadTableMsg s.onboarding_data] }

/-- Node `start_manual_entry`. -/
def start_manual_entry (s : OnboardingState) : OnboardingState :=
  { s with
      manual_entry_field := "name",
      current_manual_entry := [],
      history := s.history ++ [askNameMsg] }

/-- `fields_order` from `process_manual_entry`. -/
def fields_order : List String := ["name", "phone", "designation", "salary"]

/-- The `field_prompts` dict lookup with its f-string default. -/
def field_prompts (f : String) : String :=
  if f = "phone" then "Great! Now, what is their phone number?"
  else if f = "designation" then "Perfect! What is their job designation/title?"
  else if f = "salary" then "Excellent! What is their salary (annual amount)?"
  else "Now, what is their " ++ f ++ "?"

/-- `state['history'][-1]['content'] if state['history'] else ""`. -/
def lastContent (s : OnboardingState) : String :=
  match s.history.getLast? with
  | some m => m.content
  | none => ""

/-- Node `process_manual_entry`.  Stores the last utterance under the
current field, then either advances to the next field, completes the
record (append to `onboarding_data`, clear draft and field), or — when
`manual_entry_field` is not in `fields_order`, the Python
`list.index` `ValueError` branch — restarts the draft.  Note the
except-branch discards the draft including the value just stored.
The source reads the field with a `"name"` default for a missing key;
the TypedDict always carries the key (the driver initializes it), so
the state type makes the default unreachable. -/
def process_manual_entry (s : OnboardingState) : OnboardingState :=
  let current_field := s.manual_entry_field
  let user_input := lastContent s
  let draft := dictSet s.current_manual_entry current_field user_input
  match fields_order.indexOf? current_field with
  | some i =>
    if i + 1 < fields_order.length then
      let next_field := fields_order.getD (i + 1) ""
      { s with
          current_manual_entry := draft,
          manual_entry_field := next_field,
          history := s.history ++ [plainMsg (field_prompts next_field)] }
    else
      { s with
          onboarding_data := s.onboarding_data ++ [draft],
          manual_entry_field := "",
          current_manual_entry := [],
          history := s.history ++
            [collectedTableMsg (s.onboarding_data ++ [draft]), nextActionMsg] }
  | none =>
    { s with
        manual_entry_field := "name",
        current_manual_entry := [],
        history := s.history ++ [restartMsg] }

/-- Node `validate_data` (the review step). -/
def validate_data (s : OnboardingState) : OnboardingState :=
  if s.onboarding_data.isEmpty then
    { s with history := s.history ++ [noDataFoundMsg] }
  else
    { s with history := s.history ++
        [reviewTableMsg s.onboarding_data, reviewChoiceMsg] }

-- ## Persistence sink (`db.py`)

/-- The CSV path constant of `db.py` (the actual path is
environment-dependent; no claim depends on its value). -/
def DB_FILE : String := "onboarding_database.csv"

/-- `save_to_db` from `db.py`: empty input is a no-op message; a
successful write reports the count; an exception `e` from the write is
caught and rendered as an error message.  Never raises. -/
def save_to_db (sinkErr : Option String) (l : List EmployeeDict) : String :=
  if l.isEmpty then "No data to save."
  else
    match sinkErr with
    | none => "Successfully saved " ++ toString l.length ++ " employee(s) to " ++ DB_FILE ++ "."
    | some e => "Error saving to database: " ++ e

/-- Node `save_data` (the persist step).  Returns the new state and
the list of argument lists passed to `save_to_db` (so theorems can
speak about whether the sink was invoked).  With a non-empty batch the
sink message is embedded into a completion message and
`onboarding_data` is cleared unconditionally — also when the sink
reported a failure. -/
def save_data (sinkErr : Option String) (s : OnboardingState) :
    OnboardingState × List (List EmployeeDict) :=
  if s.onboarding_data.isEmpty then
    ({ s with history := s.history ++ [noSaveMsg] }, [])
  else
    ({ s with
        history := s.history ++ [saveDoneMsg (save_to_db sinkErr s.onboarding_data)],
        onboarding_data := [] }, [s.onboarding_data])

/-- Node `clear_data` (the reset step). -/
def clear_data (s : OnboardingState) : OnboardingState :=
  { s with
      onboarding_data := [],
      current_manual_entry := [],
      manual_entry_field := "",
      history := s.history ++ [clearedMsg] }

-- ## Router and compiled graph

/-- Names of the seven graph nodes. -/
inductive StepId
  | start_onboarding
  | process_upload
  | start_manual_entry
  | process_manual_entry
  | validate_data
  | save_data
  | clear_data
deriving Repr, DecidableEq

/-- `route_entry_point` from `graph_flow.py`: empty history goes to
start; otherwise substring keyword checks on the lowercased last
message, in source order; then the manual-entry sentinel; then the
start fallback. -/
def route_entry_point (s : OnboardingState) : StepId :=
  match s.history.getLast? with
  | none => .start_onboarding
  | some m =>
    let last_message := (strLower m.content)
    if strContains last_message "start onboarding" then .start_onboarding
    else if strContains last_message "upload excel file" then .process_upload
    else if strContains last_message "enter manually" then .start_manual_entry
    else if strContains last_message "add another employee" then .start_manual_entry
    else if strContains last_message "save data" then .save_data
    else if strContains last_message "modify data" || strContains last_message "review" then .validate_data
    else if strContains last_message "clear all data" then .clear_data
    else if strContains last_message "file uploaded and processed" then .validate_data
    else if s.manual_entry_field ≠ "" then .process_manual_entry
    else .start_onboarding

/-- Execute one node; the second component is the list of argument
lists handed to `save_to_db` (empty for every node but `save_data`
with a non-empty batch). -/
def execNode (sinkErr : Option String) (id : StepId) (s : OnboardingState) :
    OnboardingState × List (List EmployeeDict) :=
  match id with
  | .start_onboarding => (start_onboarding s, [])
  | .process_upload => (process_upload s, [])
  | .start_manual_entry => (start_manual_entry s, [])
  | .process_manual_entry => (process_manual_entry s, [])
  | .validate_data => (validate_data s, [])
  | .save_data => save_data sinkErr s
  | .clear_data => (clear_data s, [])

/-- Result of one invocation of the compiled graph: final state, the
nodes executed in order, and the sink invocations. -/
structure TurnResult where
  state : OnboardingState
  steps : List StepId
  sinkCalls : List (List EmployeeDict)
deriving Repr, DecidableEq

/-- One invocation of the graph built by `create_onboarding_workflow`:
the conditional entry point picks a node; `process_upload` has a static
edge to `validate_data`; `process_manual_entry` follows
`route_after_manual_entry` (to `validate_data` iff
`manual_entry_field == ""` afterwards); every other node goes to END. -/
def runTurn (sinkErr : Option String) (s : OnboardingState) : TurnResult :=
  let n1 := route_entry_point s
  let r1 := execNode sinkErr n1 s
  match n1 with
  | .process_upload =>
    let r2 := execNode sinkErr .validate_data r1.1
    ⟨r2.1, [n1, .validate_data], r1.2 ++ r2.2⟩
  | .process_manual_entry =>
    if r1.1.manual_entry_field = "" then
      let r2 := execNode sinkErr .validate_data r1.1
      ⟨r2.1, [n1, .validate_data], r1.2 ++ r2.2⟩
    else
      ⟨r1.1, [n1], r1.2⟩
  | _ => ⟨r1.1, [n1], r1.2⟩

-- ## Per-turn driver (`main.py`)

/-- One user turn as driven by `handle_user_input` in onboarding mode:
append the utterance to `history` as a user message, then invoke the
graph once. -/
def processTurn (sinkErr : Option String) (s : OnboardingState) (u : String) : TurnResult :=
  runTurn sinkErr { s with history := s.history ++ [userMsg u] }

/-- The state after one user turn. -/
def processUtterance (sinkErr : Option String) (s : OnboardingState) (u : String) :
    OnboardingState :=
  (processTurn sinkErr s u).state

/-- The state after a sequence of user turns. -/
def processUtterances (sinkErr : Option String) (s : OnboardingState)
    (us : List String) : OnboardingState :=
  us.foldl (processUtterance sinkErr) s

/-- The fresh session state: empty history, empty batch, empty draft,
not in manual-entry mode. -/
def initState : OnboardingState :=
  { history := [], onboarding_data := [], current_manual_entry := [],
    manual_entry_field := "" }

-- ## Derived routing notions used in claim statements

/-- The router's decision as a function of the last message's raw
content and the manual-entry sentinel (same decision list as
`route_entry_point`, factored out for stating routing lemmas). -/
def routeOf (content pending : String) : StepId :=
  let last_message := (strLower content)
  if strContains last_message "start onboarding" then .start_onboarding
  else if strContains last_message "upload excel file" then .process_upload
  else if strContains last_message "enter manually" then .start_manual_entry
  else if strContains last_message "add another employee" then .start_manual_entry
  else if strContains last_message "save data" then .save_data
  else if strContains last_message "modify data" || strContains last_message "review" then .validate_data
  else if strContains last_message "clear all data" then .clear_data
  else if strContains last_message "file uploaded and processed" then .validate_data
  else if pending ≠ "" then .process_manual_entry
  else .start_onboarding

/-- Modelled from the spec (section 4.1 decision list, with the
vocabulary the code actually matches): empty history routes to start;
otherwise first match on the lowercased last message in priority order
`"start onboarding"`, `"upload excel file"`, `"enter manually"` or
`"add another employee"`, `"save data"`, `"modify data"` or
`"review"`, `"clear all data"`, `"file uploaded and processed"`; then
the non-empty `pendingField` sentinel; then the start fallback. -/
def routeSpecAmended (s : OnboardingState) : StepId :=
  match s.history.getLast? with
  | none => .start_onboarding
  | some m =>
    let t := (strLower m.content)
    if strContains t "start onboarding" then .start_onboarding
    else if strContains t "upload excel file" then .process_upload
    else if strContains t "enter manually" || strContains t "add another employee" then
      .start_manual_entry
    else if strContains t "save data" then .save_data
    else if strContains t "modify data" || strContains t "review" then .validate_data
    else if strContains t "clear all data" then .clear_data
    else if strContains t "file uploaded and processed" then .validate_data
    else if s.manual_entry_field ≠ "" then .process_manual_entry
    else .start_onboarding

/-- Whether the lowercased utterance contains any of the router's
keyword phrases (utterances without one are pure field answers). -/
def hasKeyword (u : String) : Bool :=
  strContains (strLower u) "start onboarding" ||
  strContains (strLower u) "upload excel file" ||
  strContains (strLower u) "enter manually" ||
  strContains (strLower u) "add another employee" ||
  strContains (strLower u) "save data" ||
  strContains (strLower u) "modify data" ||
  strContains (strLower u) "review" ||
  strContains (strLower u) "clear all data" ||
  strContains (strLower u) "file uploaded and processed"

-- ## Concrete states used by counterexamples and witnesses

/-- A state holding one collected record (non-empty batch). -/
def oneRecordState : OnboardingState :=
  { initState with onboarding_data := [[("name", "A")]] }

/-- A state in the middle of manual entry, waiting for the salary
answer, with the draft holding the first three fields. -/
def awaitSalaryState : OnboardingState :=
  { history := [userMsg "90000"],
    onboarding_data := [],
    current_manual_entry := [("name", "A"), ("phone", "1"), ("designation", "E")],
    manual_entry_field := "salary" }

/-- A state whose last message is the upload-choice utterance. -/
def uploadTurnState : OnboardingState :=
  { initState with history := [userMsg "Upload Excel File"] }

/-- A state whose `manual_entry_field` holds a value outside
`fields_order`. -/
def corruptPendingState : OnboardingState :=
  { history := [userMsg "x"],
    onboarding_data := [[("name", "A")]],
    current_manual_entry := [],
    manual_entry_field := "xyz" }

/-- A state whose last message is the transport layer's
"File Uploaded and Processed" signal. -/
def fileUploadedState : OnboardingState :=
  { initState with history := [userMsg "File Uploaded and Processed"] }

-- ## Routing and driver lemmas

theorem getLast?_update_concat (s : OnboardingState) (m : Message) :
    (OnboardingState.history { s with history := s.history ++ [m] }).getLast? = some m := by
  simp

theorem route_entry_point_concat (s : OnboardingState) (m : Message) :
    route_entry_point { s with history := s.history ++ [m] } =
      routeOf m.content s.manual_entry_field := by
  unfold route_entry_point routeOf
  simp only [List.getLast?_concat]

theorem runTurn_default (e : Option String) (s : OnboardingState) (id : StepId)
    (h : route_entry_point s = id)
    (h2 : id ≠ .process_upload) (h3 : id ≠ .process_manual_entry) :
    runTurn e s = ⟨(execNode e id s).1, [id], (execNode e id s).2⟩ := by
  unfold runTurn
  rw [h]
  cases id <;> simp_all

theorem runTurn_upload (e : Option String) (s : OnboardingState)
    (h : route_entry_point s = .process_upload) :
    runTurn e s =
      ⟨validate_data (process_upload s), [.process_upload, .validate_data], []⟩ := by
  unfold runTurn
  rw [h]
  simp [execNode]

theorem runTurn_manual (e : Option String) (s : OnboardingState)
    (h : route_entry_point s = .process_manual_entry) :
    runTurn e s =
      if (process_manual_entry s).manual_entry_field = "" then
        ⟨validate_data (process_manual_entry s),
          [.process_manual_entry, .validate_data], []⟩
      else
        ⟨process_manual_entry s, [.process_manual_entry], []⟩ := by
  unfold runTurn
  rw [h]
  split <;> simp_all [execNode]

theorem hist_prefix_pme (s : OnboardingState) :
    s.history <+: (process_manual_entry s).history := by
  unfold process_manual_entry
  rcases h : List.indexOf? s.manual_entry_field fields_order with _ | i
  · simp [h]
  · simp only [h]
    split <;> simp

-- ## Claim theorems

/-- Claim C1, counterexample: with a one-record batch and a failing
sink, the persist step does NOT leave the batch as it was — it clears
it. -/
theorem C1_counterexample :
    ¬ ((save_data (some "disk full") oneRecordState).1.onboarding_data =
        oneRecordState.onboarding_data) := by
  decide

/-- Claim C1 (amended): for every state with a non-empty batch, when
the sink reports failure `e` the persist step appends one message
embedding the sink's failure text (followed by the fixed completion
suffix) and clears the batch unconditionally — persistence failure
does clear the in-memory batch. -/
theorem C1_persist_failure_clears_batch (e : String) (s : OnboardingState)
    (h : s.onboarding_data ≠ []) :
    (save_data (some e) s).1.history =
      s.history ++ [saveDoneMsg ("Error saving to database: " ++ e)] ∧
    (save_data (some e) s).1.onboarding_data = [] := by
  unfold save_data save_to_db
  simp [h]

theorem C1_persist_failure_clears_batch_witness :
    oneRecordState.onboarding_data ≠ [] ∧
    ((save_data (some "disk full") oneRecordState).1.history =
       oneRecordState.history ++
         [saveDoneMsg ("Error saving to database: " ++ "disk full")] ∧
     (save_data (some "disk full") oneRecordState).1.onboarding_data = []) :=
  ⟨by decide, C1_persist_failure_clears_batch "disk full" oneRecordState (by decide)⟩

/-- Claim C2, counterexample: a turn answering the salary question
executes `process_manual_entry` and then auto-chains into
`validate_data` in the same turn — an auto-chain whose first step is
not the upload-acknowledgement step. -/
theorem C2_counterexample :
    (runTurn none awaitSalaryState).steps =
      [StepId.process_manual_entry, StepId.validate_data] ∧
    StepId.process_manual_entry ≠ StepId.process_upload := by
  decide

/-- Claim C2 (amended): each turn performs one router dispatch and at
most two step executions; when a second step runs it is always the
review step, and the first step is then either the upload-ack step or
the manual-collection step (which chains on record completion) — so
upload-ack is not the only auto-chaining step. -/
theorem C2_auto_chain (e : Option String) (s : OnboardingState) :
    (runTurn e s).steps.length ≤ 2 ∧
    (runTurn e s).steps[0]? = some (route_entry_point s) ∧
    ((runTurn e s).steps.length = 2 →
      (runTurn e s).steps[1]? = some StepId.validate_data ∧
      (route_entry_point s = StepId.process_upload ∨
       route_entry_point s = StepId.process_manual_entry)) := by
  unfold runTurn
  cases h : route_entry_point s <;> simp only [h] <;> try simp
  split <;> simp

theorem C2_auto_chain_witness :
    (runTurn none uploadTurnState).steps.length = 2 ∧
    (runTurn none uploadTurnState).steps[1]? = some StepId.validate_data ∧
    (route_entry_point uploadTurnState = StepId.process_upload ∨
     route_entry_point uploadTurnState = StepId.process_manual_entry) :=
  ⟨by decide, ((C2_auto_chain none uploadTurnState).2.2 (by decide)).1,
   ((C2_auto_chain none uploadTurnState).2.2 (by decide)).2⟩

/-- Claim C3, counterexample: the spec's short keywords are not the
code's vocabulary: the utterances "save" and "upload" (which per the
claim route to persist resp. upload-ack) both fall through to the
start fallback. -/
theorem C3_counterexample :
    route_entry_point { initState with history := [userMsg "save"] } =
      StepId.start_onboarding ∧
    StepId.start_onboarding ≠ StepId.save_data ∧
    route_entry_point { initState with history := [userMsg "upload"] } =
      StepId.start_onboarding ∧
    StepId.start_onboarding ≠ StepId.process_upload := by
  decide

/-- Claim C3 (amended): the route is decided first-match-wins in the
fixed order of `routeSpecAmended`: empty history → start; then the
substring vocabulary "start onboarding"→start, "upload excel
file"→upload-ack, "enter manually"/"add another employee"→begin-manual,
"save data"→persist, "modify data"/"review"→review, "clear all
data"→reset, "file uploaded and processed"→review; then non-empty
`pendingField` → collect-field; else start. -/
theorem C3_router_vocabulary (s : OnboardingState) :
    route_entry_point s = routeSpecAmended s := by
  unfold route_entry_point routeSpecAmended
  cases s.history.getLast? with
  | none => rfl
  | some m =>
    rcases hb : strContains (strLower m.content) "enter manually" <;>
      rcases hb2 : strContains (strLower m.content) "add another employee" <;>
        simp [hb, hb2]

/-- Claim C5, counterexample: persisting with an empty batch appends
the plain "No data to save" message, which carries no options — the
{Enter Manually, Upload Excel File} choice is not offered (that choice
belongs to the review step). -/
theorem C5_counterexample :
    (processTurn none initState "Save Data").state.history =
      [userMsg "Save Data", noSaveMsg] ∧
    noSaveMsg.options = none ∧
    noSaveMsg.type = none ∧
    (processTurn none initState "Save Data").sinkCalls = [] := by
  decide

/-- Claim C5 (amended): for every state with an empty batch, the "Save
Data" turn routes to the persist step only, never invokes the sink,
cannot fail, leaves the batch empty, and appends the plain
"No data to save. The onboarding process is complete." message, which
offers no choices. -/
theorem C5_empty_persist (e : Option String) (s : OnboardingState)
    (h : s.onboarding_data = []) :
    (processTurn e s "Save Data").sinkCalls = [] ∧
    (processTurn e s "Save Data").steps = [StepId.save_data] ∧
    (processTurn e s "Save Data").state.history =
      s.history ++ [userMsg "Save Data", noSaveMsg] ∧
    (processTurn e s "Save Data").state.onboarding_data = [] ∧
    noSaveMsg.options = none := by
  have hr : route_entry_point { s with history := s.history ++ [userMsg "Save Data"] } =
      .save_data := by
    rw [route_entry_point_concat]
    rfl
  unfold processTurn
  rw [runTurn_default e _ .save_data hr (by decide) (by decide)]
  unfold execNode save_data
  simp [h, noSaveMsg, plainMsg]

theorem C5_empty_persist_witness :
    initState.onboarding_data = [] ∧
    ((processTurn none initState "Save Data").sinkCalls = [] ∧
     (processTurn none initState "Save Data").steps = [StepId.save_data] ∧
     (processTurn none initState "Save Data").state.history =
       initState.history ++ [userMsg "Save Data", noSaveMsg] ∧
     (processTurn none initState "Save Data").state.onboarding_data = [] ∧
     noSaveMsg.options = none) :=
  ⟨rfl, C5_empty_persist none initState rfl⟩

/-- Claim C6: when `manual_entry_field` holds a value outside the
fixed field order, the collect-field step resets it to "name", clears
the draft, and leaves the batch of completed entries unchanged. -/
theorem C6_corrupt_pending (s : OnboardingState)
    (h : s.manual_entry_field ∉ fields_order) :
    (process_manual_entry s).manual_entry_field = "name" ∧
    (process_manual_entry s).current_manual_entry = [] ∧
    (process_manual_entry s).onboarding_data = s.onboarding_data := by
  have hidx : fields_order.indexOf? s.manual_entry_field = none :=
    List.indexOf?_eq_none_iff.mpr (fun x hx hbeq => h (eq_of_beq hbeq ▸ hx))
  unfold process_manual_entry
  simp [hidx]

theorem C6_corrupt_pending_witness :
    corruptPendingState.manual_entry_field ∉ fields_order ∧
    ((process_manual_entry corruptPendingState).manual_entry_field = "name" ∧
     (process_manual_entry corruptPendingState).current_manual_entry = [] ∧
     (process_manual_entry corruptPendingState).onboarding_data =
       corruptPendingState.onboarding_data) :=
  ⟨by decide, C6_corrupt_pending corruptPendingState (by decide)⟩

/-- Claim C7: the reset step always yields an empty batch, an empty
draft and an empty pending field, and appends exactly one message — a
choice prompt to restart. -/
theorem C7_reset (s : OnboardingState) :
    (clear_data s).onboarding_data = [] ∧
    (clear_data s).current_manual_entry = [] ∧
    (clear_data s).manual_entry_field = "" ∧
    (clear_data s).history = s.history ++ [clearedMsg] ∧
    clearedMsg.type = some "choice" ∧
    clearedMsg.options = some ["Enter Manually", "Upload Excel File"] := by
  simp [clear_data, clearedMsg, choiceMsg]

/-- Claim C8: the review step changes nothing but `history`: batch,
draft and pending field are untouched; with a non-empty batch it
appends the batch as a table message plus a choice, with an empty
batch it appends the {Enter Manually, Upload Excel File} choice and no
table. -/
theorem C8_review_frame (s : OnboardingState) :
    (validate_data s).onboarding_data = s.onboarding_data ∧
    (validate_data s).current_manual_entry = s.current_manual_entry ∧
    (validate_data s).manual_entry_field = s.manual_entry_field ∧
    (validate_data s).history = s.history ++
      (if s.onboarding_data.isEmpty then [noDataFoundMsg]
       else [reviewTableMsg s.onboarding_data, reviewChoiceMsg]) ∧
    (reviewTableMsg s.onboarding_data).type = some "dataframe" ∧
    (reviewTableMsg s.onboarding_data).data = some s.onboarding_data ∧
    noDataFoundMsg.type = some "choice" ∧
    noDataFoundMsg.options = some ["Enter Manually", "Upload Excel File"] := by
  by_cases hbe : s.onboarding_data.isEmpty <;>
    simp [validate_data, hbe, reviewTableMsg, tableMsg, noDataFoundMsg, choiceMsg]

/-- Claim C9: every one of the seven graph steps only appends to
`history`: the input history is a prefix of the output history, so no
message is ever reordered or deleted. -/
theorem C9_history_append_only (e : Option String) (id : StepId) (s : OnboardingState) :
    s.history <+: (execNode e id s).1.history := by
  cases id
  case process_manual_entry =>
    simp only [execNode]
    exact hist_prefix_pme s
  case start_onboarding => simp [execNode, start_onboarding]
  case start_manual_entry => simp [execNode, start_manual_entry]
  case clear_data => simp [execNode, clear_data]
  case process_upload =>
    simp only [execNode, process_upload]
    split <;> simp
  case validate_data =>
    simp only [execNode, validate_data]
    split <;> simp
  case save_data =>
    simp only [execNode, save_data]
    split <;> simp

/-- Claim C10: a non-empty-history state whose lowercased last message
contains "file uploaded and processed" and none of the eight keyword
phrases checked before it routes to the review step. -/
theorem C10_file_uploaded_route (s : OnboardingState) (m : Message)
    (hlast : s.history.getLast? = some m)
    (h1 : strContains (strLower m.content) "start onboarding" = false)
    (h2 : strContains (strLower m.content) "upload excel file" = false)
    (h3 : strContains (strLower m.content) "enter manually" = false)
    (h4 : strContains (strLower m.content) "add another employee" = false)
    (h5 : strContains (strLower m.content) "save data" = false)
    (h6 : strContains (strLower m.content) "modify data" = false)
    (h7 : strContains (strLower m.content) "review" = false)
    (h8 : strContains (strLower m.content) "clear all data" = false)
    (h9 : strContains (strLower m.content) "file uploaded and processed" = true) :
    route_entry_point s = StepId.validate_data := by
  unfold route_entry_point
  rw [hlast]
  simp [h1, h2, h3, h4, h5, h6, h7, h8, h9]

-- ## Manual-collection turn lemmas (for claim C4)

theorem lastContent_concat (s : OnboardingState) (u : String) :
    lastContent { s with history := s.history ++ [userMsg u] } = u := by
  simp [lastContent, List.getLast?_concat, userMsg]

theorem routeOf_no_keyword (u p : String) (h : hasKeyword u = false) :
    routeOf u p = if p ≠ "" then .process_manual_entry else .start_onboarding := by
  unfold hasKeyword at h
  simp only [Bool.or_eq_false_iff] at h
  obtain ⟨⟨⟨⟨⟨⟨⟨⟨h1, h2⟩, h3⟩, h4⟩, h5⟩, h6⟩, h7⟩, h8⟩, h9⟩ := h
  unfold routeOf
  simp [h1, h2, h3, h4, h5, h6, h7, h8, h9]

theorem route_answer (s : OnboardingState) (u : String)
    (hk : hasKeyword u = false) (hp : s.manual_entry_field ≠ "") :
    route_entry_point { s with history := s.history ++ [userMsg u] } =
      .process_manual_entry := by
  rw [route_entry_point_concat]
  simp only [userMsg]
  rw [routeOf_no_keyword _ _ hk]
  simp [hp]

theorem pme_step_name (s : OnboardingState) (hf : s.manual_entry_field = "name") :
    process_manual_entry s = { s with
      current_manual_entry := dictSet s.current_manual_entry "name" (lastContent s),
      manual_entry_field := "phone",
      history := s.history ++ [plainMsg (field_prompts "phone")] } := by
  unfold process_manual_entry
  rw [hf]
  rfl

theorem pme_step_phone (s : OnboardingState) (hf : s.manual_entry_field = "phone") :
    process_manual_entry s = { s with
      current_manual_entry := dictSet s.current_manual_entry "phone" (lastContent s),
      manual_entry_field := "designation",
      history := s.history ++ [plainMsg (field_prompts "designation")] } := by
  unfold process_manual_entry
  rw [hf]
  rfl

theorem pme_step_designation (s : OnboardingState)
    (hf : s.manual_entry_field = "designation") :
    process_manual_entry s = { s with
      current_manual_entry := dictSet s.current_manual_entry "designation" (lastContent s),
      manual_entry_field := "salary",
      history := s.history ++ [plainMsg (field_prompts "salary")] } := by
  unfold process_manual_entry
  rw [hf]
  rfl

theorem pme_step_salary (s : OnboardingState) (hf : s.manual_entry_field = "salary") :
    process_manual_entry s = { s with
      onboarding_data := s.onboarding_data ++
        [dictSet s.current_manual_entry "salary" (lastContent s)],
      manual_entry_field := "",
      current_manual_entry := [],
      history := s.history ++
        [collectedTableMsg (s.onboarding_data ++
           [dictSet s.current_manual_entry "salary" (lastContent s)]),
         nextActionMsg] } := by
  unfold process_manual_entry
  rw [hf]
  rfl

theorem turn_enter_manually (e : Option String) (s : OnboardingState) :
    processUtterance e s "Enter Manually" = { s with
      history := s.history ++ [userMsg "Enter Manually", askNameMsg],
      current_manual_entry := [],
      manual_entry_field := "name" } := by
  have hr : route_entry_point { s with history := s.history ++ [userMsg "Enter Manually"] } =
      .start_manual_entry := by
    rw [route_entry_point_concat]
    rfl
  unfold processUtterance processTurn
  rw [runTurn_default e _ .start_manual_entry hr (by decide) (by decide)]
  simp [execNode, start_manual_entry]

theorem turn_start_onboarding (e : Option String) (s : OnboardingState) :
    processUtterance e s "Start Onboarding" = { s with
      history := s.history ++ [userMsg "Start Onboarding", welcomeMsg] } := by
  have hr : route_entry_point { s with history := s.history ++ [userMsg "Start Onboarding"] } =
      .start_onboarding := by
    rw [route_entry_point_concat]
    rfl
  unfold processUtterance processTurn
  rw [runTurn_default e _ .start_onboarding hr (by decide) (by decide)]
  simp [execNode, start_onboarding]

theorem turn_collect_name (e : Option String) (s : OnboardingState) (u : String)
    (hk : hasKeyword u = false) (hf : s.manual_entry_field = "name") :
    processUtterance e s u = { s with
      history := s.history ++ [userMsg u, plainMsg (field_prompts "phone")],
      current_manual_entry := dictSet s.current_manual_entry "name" u,
      manual_entry_field := "phone" } := by
  have hr := route_answer s u hk (by rw [hf]; decide)
  unfold processUtterance processTurn
  rw [runTurn_manual e _ hr,
    pme_step_name { s with history := s.history ++ [userMsg u] } hf]
  simp [lastContent_concat]

theorem turn_collect_phone (e : Option String) (s : OnboardingState) (u : String)
    (hk : hasKeyword u = false) (hf : s.manual_entry_field = "phone") :
    processUtterance e s u = { s with
      history := s.history ++ [userMsg u, plainMsg (field_prompts "designation")],
      current_manual_entry := dictSet s.current_manual_entry "phone" u,
      manual_entry_field := "designation" } := by
  have hr := route_answer s u hk (by rw [hf]; decide)
  unfold processUtterance processTurn
  rw [runTurn_manual e _ hr,
    pme_step_phone { s with history := s.history ++ [userMsg u] } hf]
  simp [lastContent_concat]

theorem turn_collect_designation (e : Option String) (s : OnboardingState) (u : String)
    (hk : hasKeyword u = false) (hf : s.manual_entry_field = "designation") :
    processUtterance e s u = { s with
      history := s.history ++ [userMsg u, plainMsg (field_prompts "salary")],
      current_manual_entry := dictSet s.current_manual_entry "designation" u,
      manual_entry_field := "salary" } := by
  have hr := route_answer s u hk (by rw [hf]; decide)
  unfold processUtterance processTurn
  rw [runTurn_manual e _ hr,
    pme_step_designation { s with history := s.history ++ [userMsg u] } hf]
  simp [lastContent_concat]

theorem turn_collect_salary (e : Option String) (s : OnboardingState) (u : String)
    (hk : hasKeyword u = false) (hf : s.manual_entry_field = "salary") :
    processUtterance e s u = { s with
      history := s.history ++ [userMsg u,
        collectedTableMsg (s.onboarding_data ++
          [dictSet s.current_manual_entry "salary" u]),
        nextActionMsg,
        reviewTableMsg (s.onboarding_data ++
          [dictSet s.current_manual_entry "salary" u]),
        reviewChoiceMsg],
      onboarding_data := s.onboarding_data ++
        [dictSet s.current_manual_entry "salary" u],
      current_manual_entry := [],
      manual_entry_field := "" } := by
  have hr := route_answer s u hk (by rw [hf]; decide)
  unfold processUtterance processTurn
  rw [runTurn_manual e _ hr,
    pme_step_salary { s with history := s.history ++ [userMsg u] } hf]
  simp [lastContent_concat, validate_data]

/-- Claim C4: manual collection with answers free of command keywords
appends exactly one fully-populated record (the four raw answers under
name, phone, designation, salary) and ends with the pending field
empty; in particular the spec's six-utterance scenario ends with batch
= [Alice record] and empty pending field. -/
theorem C4_manual_collection :
    (∀ (e : Option String) (s : OnboardingState) (a b c d : String),
        hasKeyword a = false → hasKeyword b = false →
        hasKeyword c = false → hasKeyword d = false →
        (processUtterances e s ["Enter Manually", a, b, c, d]).onboarding_data =
          s.onboarding_data ++
            [[("name", a), ("phone", b), ("designation", c), ("salary", d)]] ∧
        (processUtterances e s ["Enter Manually", a, b, c, d]).manual_entry_field = "") ∧
    ((processUtterances none initState
        ["Start Onboarding", "Enter Manually", "Alice", "5551234567",
         "Engineer", "90000"]).onboarding_data =
      [[("name", "Alice"), ("phone", "5551234567"), ("designation", "Engineer"),
        ("salary", "90000")]] ∧
     (processUtterances none initState
        ["Start Onboarding", "Enter Manually", "Alice", "5551234567",
         "Engineer", "90000"]).manual_entry_field = "") := by
  have gen : ∀ (e : Option String) (s : OnboardingState) (a b c d : String),
      hasKeyword a = false → hasKeyword b = false →
      hasKeyword c = false → hasKeyword d = false →
      (processUtterances e s ["Enter Manually", a, b, c, d]).onboarding_data =
        s.onboarding_data ++
          [[("name", a), ("phone", b), ("designation", c), ("salary", d)]] ∧
      (processUtterances e s ["Enter Manually", a, b, c, d]).manual_entry_field = "" := by
    intro e s a b c d ha hb hc hd
    simp only [processUtterances, List.foldl]
    rw [turn_enter_manually e s]
    rw [turn_collect_name e _ a ha rfl]
    rw [turn_collect_phone e _ b hb rfl]
    rw [turn_collect_designation e _ c hc rfl]
    rw [turn_collect_salary e _ d hd rfl]
    exact ⟨rfl, rfl⟩
  refine ⟨gen, ?_⟩
  have h := gen none (processUtterance none initState "Start Onboarding")
    "Alice" "5551234567" "Engineer" "90000" (by decide) (by decide) (by decide) (by decide)
  exact h

theorem C4_manual_collection_witness :
    hasKeyword "Alice" = false ∧ hasKeyword "5551234567" = false ∧
    hasKeyword "Engineer" = false ∧ hasKeyword "90000" = false ∧
    ((processUtterances none initState
        ["Enter Manually", "Alice", "5551234567", "Engineer", "90000"]).onboarding_data =
      initState.onboarding_data ++
        [[("name", "Alice"), ("phone", "5551234567"), ("designation", "Engineer"),
          ("salary", "90000")]] ∧
     (processUtterances none initState
        ["Enter Manually", "Alice", "5551234567", "Engineer", "90000"]).manual_entry_field = "") :=
  ⟨by decide, by decide, by decide, by decide,
   C4_manual_collection.1 none initState "Alice" "5551234567" "Engineer" "90000"
     (by decide) (by decide) (by decide) (by decide)⟩

theorem C10_file_uploaded_route_witness :
    fileUploadedState.history.getLast? =
      some (userMsg "File Uploaded and Processed") ∧
    strContains (strLower (userMsg "File Uploaded and Processed").content)
      "file uploaded and processed" = true ∧
    route_entry_point fileUploadedState = StepId.validate_data :=
  ⟨by decide, by decide,
   C10_file_uploaded_route fileUploadedState (userMsg "File Uploaded and Processed")
     (by decide) (by decide) (by decide) (by decide) (by decide) (by decide)
     (by decide) (by decide) (by decide) (by decide)⟩

end Onboarding
